import Mathlib

/-!
Verification development for the switchio call-routing dispatch engine.

The repository ships `switchio/utils.py` (embedded directly below) and the
routing test-suite `tests/test_routing.py`.  The routing core itself
(RouteTable, GuardEvaluator, Router, Composer, Session) is exercised by the
tests but its module is not present; those components are modelled from the
specification, as marked on each definition.
-/

namespace Switchio

/-! ## Metadata mappings

Session metadata is a string-keyed mapping of call signaling headers.  We
model a mapping as an association list; `mget` is Python's `dict.get(key)`
(first binding wins, `none` when absent) and `mgetD` is `dict.get(key, d)`. -/

abbrev Metadata := List (String × String)

def mget : Metadata → String → Option String
  | [], _ => none
  | (k, v) :: rest, key => if k = key then some v else mget rest key

def mgetD (md : Metadata) (key d : String) : String :=
  (mget md key).getD d

/-- Substring containment test for strings (Python's `key in name`). -/
def strContains (s sub : String) : Bool :=
  decide (sub.toList <:+: s.toList)

/-! ## Regular expressions

Modelled from the spec: route patterns are compiled regular expressions
matched with substring-search semantics (`re.search`, not full-string
anchoring).  The routing module holding the compiled patterns is not in the
sources, so matching is modelled with Brzozowski derivatives: `rmatch` is a
whole-string match, `matchesAtStart` matches some prefix of the input, and
`rsearch` matches some contiguous substring (search semantics). -/

inductive Regex where
  | emp : Regex
  | eps : Regex
  | chr (c : Char) : Regex
  | dot : Regex
  | alt (r₁ r₂ : Regex) : Regex
  | cat (r₁ r₂ : Regex) : Regex
  | star (r : Regex) : Regex
deriving DecidableEq

def nullable : Regex → Bool
  | .emp => false
  | .eps => true
  | .chr _ => false
  | .dot => false
  | .alt r₁ r₂ => nullable r₁ || nullable r₂
  | .cat r₁ r₂ => nullable r₁ && nullable r₂
  | .star _ => true

def deriv : Regex → Char → Regex
  | .emp, _ => .emp
  | .eps, _ => .emp
  | .chr c, a => if c = a then .eps else .emp
  | .dot, a => if a = '\n' then .emp else .eps
  | .alt r₁ r₂, a => .alt (deriv r₁ a) (deriv r₂ a)
  | .cat r₁ r₂, a =>
      if nullable r₁ then .alt (.cat (deriv r₁ a) r₂) (deriv r₂ a)
      else .cat (deriv r₁ a) r₂
  | .star r, a => .cat (deriv r a) (.star r)

/-- Whole-string match (Python's `re.fullmatch`). -/
def rmatch : Regex → List Char → Bool
  | r, [] => nullable r
  | r, c :: cs => rmatch (deriv r c) cs

/-- Match of some prefix of the input starting at its first position
(Python's `re.match`). -/
def matchesAtStart : Regex → List Char → Bool
  | r, [] => nullable r
  | r, c :: cs => nullable r || matchesAtStart (deriv r c) cs

/-- Match of some contiguous substring of the input (Python's `re.search`). -/
def rsearch : Regex → List Char → Bool
  | r, [] => nullable r
  | r, c :: cs => matchesAtStart r (c :: cs) || rsearch r cs

/-- A literal pattern: the concatenation of its characters. -/
def lit (s : String) : Regex :=
  s.toList.foldr (fun c r => .cat (.chr c) r) .eps

/-! ## RouteTable

Modelled from the spec: the routing module is not in the sources.  A `Route`
is an immutable (pattern, field, handler, registration index) record; a
`RouteTable` is the ordered sequence of registered routes, never reordered
or deduplicated.  The handler payload is a type parameter so the same table
model serves both the order tests (handler = name) and dispatch
(handler = executable function). -/

structure Route (α : Type) where
  pattern : Regex
  field : String
  handler : α
  index : Nat

structure RouteTable (α : Type) where
  routes : List (Route α)

/-- Modelled from the spec: `register(pattern, field, handler)` appends a
Route carrying the next ascending registration index. -/
def register (t : RouteTable α) (p : Regex) (f : String) (h : α) :
    RouteTable α :=
  ⟨t.routes ++ [⟨p, f, h, t.routes.length⟩]⟩

/-- Register a whole list of (pattern, field, handler) specs in order. -/
def registerAll (t : RouteTable α) (specs : List (Regex × String × α)) :
    RouteTable α :=
  specs.foldl (fun t s => register t s.1 s.2.1 s.2.2) t

/-- Does the route's pattern search-match the value of its field in the
metadata, a missing field being read as the empty string? -/
def routeMatches (r : Route α) (md : Metadata) : Bool :=
  rsearch r.pattern (mgetD md r.field "").toList

/-- Modelled from the spec: `iter_matches(metadata)` yields the routes whose
pattern search-matches `metadata.get(field, "")`, in ascending registration
order; all matches are yielded, never just the first. -/
def iter_matches (t : RouteTable α) (md : Metadata) : List (Route α) :=
  t.routes.filter (fun r => routeMatches r md)

/-- Modelled from the spec: one observable call of `iter_matches` returns
the (unchanged) table together with the yielded sequence, making the
read-only contract explicit as state passing. -/
def iterMatchesCall (t : RouteTable α) (md : Metadata) :
    RouteTable α × List (Route α) :=
  (t, iter_matches t md)

/-- The table as left behind by a whole sequence of `iter_matches` calls. -/
def iterCalls (t : RouteTable α) (mds : List Metadata) : RouteTable α :=
  mds.foldl (fun t md => (iterMatchesCall t md).1) t

/-! ## GuardEvaluator

Modelled from the spec: a guard is a mapping of field name to required
value; `evaluate` is true iff every guard entry is matched exactly by the
metadata (`metadata.get(key)` equal to the required value under string
equality), the empty guard being vacuously true. -/

abbrev Guard := List (String × String)

def evaluate (g : Guard) (md : Metadata) : Bool :=
  g.all fun kv => mget md kv.1 = some kv.2

/-- One observable call of `evaluate`: returns both inputs unchanged along
with the verdict, making purity explicit as state passing. -/
def evaluateCall (g : Guard) (md : Metadata) : (Guard × Metadata) × Bool :=
  ((g, md), evaluate g md)

/-! ## Session

Modelled from the spec: the per-call asynchronous state machine consumed by
handlers.  Status moves along Ringing → Answered → (Bridged | HungUp), with
Bridged → HungUp also legal and HungUp terminal.  Operations misused out of
state fail with a `SessionError`; the suspension behaviour of `answer`,
`hangup` and `recv` is an external scheduling concern and is not modelled —
each operation is embedded as its effect on the session once the external
layer confirms it. -/

inductive Status where
  | ringing
  | answered
  | bridged
  | hungUp
deriving DecidableEq

/-- Position of a status along the monotonic progression. -/
def Status.rank : Status → Nat
  | .ringing => 0
  | .answered => 1
  | .bridged => 2
  | .hungUp => 3

inductive SessionError where
  | invalidState (op : String) (st : Status)
deriving DecidableEq

structure Session where
  uuid : String
  metadata : Metadata
  status : Status
  responses : List String
  log : List String
deriving DecidableEq

/-- Modelled from the spec: `answer()` moves Ringing to Answered and fails
with a `SessionError` outside Ringing. -/
def Session.answer (s : Session) : Except SessionError Session :=
  match s.status with
  | .ringing => .ok { s with status := .answered }
  | st => .error (.invalidState "answer" st)

/-- Modelled from the spec: `bridge()` moves Answered to Bridged; misuse out
of state is a session-state error. -/
def Session.bridge (s : Session) : Except SessionError Session :=
  match s.status with
  | .answered => .ok { s with status := .bridged }
  | st => .error (.invalidState "bridge" st)

/-- Modelled from the spec: `hangup()` moves Answered or Bridged to HungUp;
misuse out of state is a session-state error. -/
def Session.hangup (s : Session) : Except SessionError Session :=
  match s.status with
  | .answered => .ok { s with status := .hungUp }
  | .bridged => .ok { s with status := .hungUp }
  | st => .error (.invalidState "hangup" st)

/-- Modelled from the spec: `playback(resource)` issues a playback command
without altering the state machine. -/
def Session.playback (s : Session) (resource : String) : Session :=
  { s with log := s.log ++ [resource] }

/-- Modelled from the spec: `respond(code)` sends a signaling response
without altering the state machine. -/
def Session.respond (s : Session) (code : String) : Session :=
  { s with responses := s.responses ++ [code] }

/-! ## Router and dispatch

Modelled from the spec: a handler runs against a session and either
completes normally or raises the StopRouting signal; its `(router, match)`
arguments are pass-through data with no bearing on the dispatch contract
and are elided.  `HandlerResult.stopped` records that the handler raised
StopRouting after producing its session effects. -/

structure HandlerResult where
  sess : Session
  stopped : Bool

abbrev Handler := Session → HandlerResult

structure Router where
  guard : Guard
  rejectOnGuard : Bool
  table : RouteTable Handler

/-- The signaling code used by guard-based rejection (spec: a rejection
response issued through the session's `respond`). -/
def guardRejectCode : String := "reject"

/-- Modelled from the spec: run the matched routes sequentially in match
order; a handler raising StopRouting halts the remaining ones, and the
signal is suppressed (the loop returns normally).  Returns the final
session and the list of routes whose handlers actually ran, in order. -/
def runMatches : List (Route Handler) → Session → Session × List (Route Handler)
  | [], s => (s, [])
  | r :: rs, s =>
      let step := r.handler s
      if step.stopped then (step.sess, [r])
      else
        let rest := runMatches rs step.sess
        (rest.1, r :: rest.2)

/-- Run routes requiring that no handler raise StopRouting: `some` final
session when none did, `none` as soon as one did. -/
def runAll : List (Route Handler) → Session → Option Session
  | [], s => some s
  | r :: rs, s =>
      let step := r.handler s
      if step.stopped then none else runAll rs step.sess

inductive DispatchOutcome where
  | guardRejected
  | guardDeclined
  | handled (ran : List (Route Handler))

/-- Modelled from the spec: `dispatch(session)` evaluates the guard; on
failure it either issues a rejection response through the session (when
reject-on-guard-failure is set, reporting guard-rejected) or passes the
session through untouched (reporting guard-declined); on success it runs
the matched handlers in order. -/
def dispatch (R : Router) (s : Session) : DispatchOutcome × Session :=
  if evaluate R.guard s.metadata then
    let res := runMatches (iter_matches R.table s.metadata) s
    (.handled res.2, res.1)
  else if R.rejectOnGuard then
    (.guardRejected, s.respond guardRejectCode)
  else
    (.guardDeclined, s)

/-- Dispatch of a stream of incoming sessions by one router: each session's
dispatch is a function of that session alone. -/
def dispatchSessions (R : Router) (ss : List Session) :
    List (DispatchOutcome × Session) :=
  ss.map (dispatch R)

/-! ## Composer

Modelled from the spec: an ordered sequence of routers scanned per
session; the first router whose guard is satisfied handles the session, a
rejecting guard failure is terminal, a non-rejecting one passes the session
to the next router, and a fully declined scan leaves the session
unhandled.  The scan also returns the positions of the routers that
observed the session. -/

inductive ComposerOutcome where
  | handledBy (i : Nat) (s : Session) (ran : List (Route Handler))
  | rejectedBy (i : Nat) (s : Session)
  | unhandled

def composerGo : List Router → Nat → Session → ComposerOutcome × List Nat
  | [], _, _ => (.unhandled, [])
  | R :: Rs, i, s =>
      match dispatch R s with
      | (.guardDeclined, _) =>
          let rest := composerGo Rs (i + 1) s
          (rest.1, i :: rest.2)
      | (.guardRejected, s') => (.rejectedBy i s', [i])
      | (.handled ran, s') => (.handledBy i s' ran, [i])

/-- Modelled from the spec: dispatch one incoming session across the loaded
router order. -/
def composerDispatch (Rs : List Router) (s : Session) :
    ComposerOutcome × List Nat :=
  composerGo Rs 0 s

/-! ## utils.py

Direct embeddings of `switchio/utils.py`. -/

/-- Embeds `utils.xheaderify`: prefix the name with the freeswitch xheader
token `sip_h_X-`. -/
def xheaderify (header_name : String) : String :=
  "sip_h_X-" ++ header_name

/-- Embeds `utils.param2header`: names containing the `sip_h_X-` or
`switchio` token get a `variable_` prefix, all others are returned
unchanged.  (The Python set iteration order is immaterial: both keys lead
to the same result.) -/
def param2header (name : String) : String :=
  if strContains name "sip_h_X-" || strContains name "switchio" then
    "variable_" ++ name
  else
    name

/-- A Python argument position for `utils.compose`: either a callable
(embedded as a function that may raise, `none` standing for an exception
escaping the call) or a non-callable object. -/
inductive Callable (α β : Type) where
  | notCallable
  | fn (f : α → Option β)

/-- Embeds `utils.compose`: check that both arguments are callable, raising
`TypeError` otherwise (first argument checked first), and return the
composition closure without invoking either function. -/
def compose (func_1 : Callable β γ) (func_2 : Callable α β) :
    Except String (α → Option γ) :=
  match func_1 with
  | .notCallable => .error "First arg must be callable"
  | .fn g₁ =>
      match func_2 with
      | .notCallable => .error "Second arg must be callable"
      | .fn g₂ => .ok fun x => (g₂ x).bind g₁

/-! ## Concrete patterns and tables appearing in the test scenarios -/

/-- The pattern `bridge.*` of Scenario C. -/
def bridgePat : Regex := .cat (lit "bridge") (.star .dot)

/-- The pattern `.*hangup` of Scenario C. -/
def hangupPat : Regex := .cat (.star .dot) (lit "hangup")

/-- The table of Scenario A: three registrations of pattern `0` on field
`did`, bound (in order) to handlers named doggy, kitty, mousey. -/
def scenarioATable : RouteTable String :=
  registerAll ⟨[]⟩
    [(lit "0", "did", "doggy"), (lit "0", "did", "kitty"),
     (lit "0", "did", "mousey")]

/-! ## Search-semantics lemmas -/

/-- `matchesAtStart` is a whole-string match of some prefix of the input. -/
theorem matchesAtStart_iff (r : Regex) (s : List Char) :
    matchesAtStart r s = true ↔
      ∃ p q, s = p ++ q ∧ rmatch r p = true := by
  induction s generalizing r with
  | nil =>
      simp only [matchesAtStart]
      constructor
      · intro h
        exact ⟨[], [], rfl, h⟩
      · rintro ⟨p, q, hpq, hm⟩
        rcases List.append_eq_nil.mp hpq.symm with ⟨hp, -⟩
        subst hp
        exact hm
  | cons c cs ih =>
      simp only [matchesAtStart, Bool.or_eq_true]
      constructor
      · rintro (h | h)
        · exact ⟨[], c :: cs, rfl, h⟩
        · rcases (ih (deriv r c)).mp h with ⟨p, q, hpq, hm⟩
          exact ⟨c :: p, q, by simp [hpq], hm⟩
      · rintro ⟨p, q, hpq, hm⟩
        cases p with
        | nil =>
            left
            exact hm
        | cons c' p' =>
            rcases List.cons_eq_cons.mp hpq with ⟨hc, hcs⟩
            subst hc
            right
            exact (ih (deriv r c)).mpr ⟨p', q, hcs, hm⟩

/-- `rsearch` is a whole-string match of some contiguous substring. -/
theorem rsearch_iff (r : Regex) (s : List Char) :
    rsearch r s = true ↔
      ∃ pre mid suf, s = pre ++ mid ++ suf ∧ rmatch r mid = true := by
  induction s with
  | nil =>
      simp only [rsearch]
      constructor
      · intro h
        exact ⟨[], [], [], rfl, h⟩
      · rintro ⟨pre, mid, suf, hs, hm⟩
        rcases List.append_eq_nil.mp hs.symm with ⟨h1, -⟩
        rcases List.append_eq_nil.mp h1 with ⟨-, h2⟩
        subst h2
        exact hm
  | cons c cs ih =>
      simp only [rsearch, Bool.or_eq_true]
      constructor
      · rintro (h | h)
        · rcases (matchesAtStart_iff r (c :: cs)).mp h with ⟨p, q, hpq, hm⟩
          exact ⟨[], p, q, by simp [hpq], hm⟩
        · rcases ih.mp h with ⟨pre, mid, suf, hs, hm⟩
          exact ⟨c :: pre, mid, suf, by simp [hs], hm⟩
      · rintro ⟨pre, mid, suf, hs, hm⟩
        cases pre with
        | nil =>
            left
            exact (matchesAtStart_iff r (c :: cs)).mpr
              ⟨mid, suf, by simpa using hs, hm⟩
        | cons c' pre' =>
            rcases List.cons_eq_cons.mp (by simpa using hs) with ⟨hc, hcs⟩
            subst hc
            right
            exact ih.mpr ⟨pre', mid, suf, by rw [List.append_assoc]; exact hcs, hm⟩

/-! ## Claims about RouteTable matching -/

/-- Claim C1: for every registered route table and every metadata mapping,
`iter_matches` yields exactly the routes whose pattern matches the field
value — a sublist of the table (hence in ascending registration order), with
membership exactly the matching routes, and with one yielded match per
matching registration (no deduplication, no first-match-wins); in Scenario
A, three registrations of the same pattern/field pair on handlers doggy,
kitty, mousey are all yielded in registration order. -/
theorem C1_route_order {α : Type} :
    (∀ (t : RouteTable α) (md : Metadata),
        (iter_matches t md).Sublist t.routes) ∧
    (∀ (t : RouteTable α) (md : Metadata) (r : Route α),
        r ∈ iter_matches t md ↔ r ∈ t.routes ∧ routeMatches r md = true) ∧
    (∀ (t : RouteTable α) (md : Metadata),
        (iter_matches t md).length
          = t.routes.countP (fun r => routeMatches r md)) ∧
    (iter_matches scenarioATable [("did", "0")]).map (fun r => r.handler)
      = ["doggy", "kitty", "mousey"] := by
  refine ⟨?_, ?_, ?_, ?_⟩
  · intro t md
    exact List.filter_sublist t.routes
  · intro t md r
    simp [iter_matches, List.mem_filter]
  · intro t md
    rw [List.countP_eq_length_filter]
    rfl
  · rfl

/-- Claim C4: `evaluate` is true exactly when every guard entry is matched
by the metadata under string equality; the empty guard is always true; any
single mismatched key forces the verdict false; and the call leaves both
the guard and the metadata unchanged (purity). -/
theorem C4_evaluate_guard (g : Guard) (md : Metadata) :
    (evaluate g md = true ↔ ∀ kv ∈ g, mget md kv.1 = some kv.2) ∧
    evaluate [] md = true ∧
    (∀ kv ∈ g, mget md kv.1 ≠ some kv.2 → evaluate g md = false) ∧
    (evaluateCall g md).1 = (g, md) := by
  refine ⟨?_, rfl, ?_, rfl⟩
  · simp [evaluate, List.all_eq_true]
  · intro kv hkv hne
    rcases Bool.eq_false_or_eq_true (evaluate g md) with h | h
    · have hall : ∀ kv ∈ g, mget md kv.1 = some kv.2 := by
        simpa [evaluate, List.all_eq_true] using h
      exact absurd (hall kv hkv) hne
    · exact h

/-- Claim C6: `iter_matches` matches each route's pattern against
`metadata.get(field, "")` with substring-search semantics — membership is
exactly a search-match of the field value, search means a whole-string
match of some contiguous substring (not full-string anchoring), a missing
field is read as the empty string (and, being total, never raises), the
Scenario C value `bridge_hangup` search-matches both `bridge.*` and
`.*hangup`, and pattern `0` search-matches `101` though it does not
anchor-match it. -/
theorem C6_substring_search {α : Type} :
    (∀ (t : RouteTable α) (md : Metadata) (r : Route α),
        r ∈ iter_matches t md ↔
          r ∈ t.routes ∧
            rsearch r.pattern (mgetD md r.field "").toList = true) ∧
    (∀ (r : Regex) (s : List Char),
        rsearch r s = true ↔
          ∃ pre mid suf, s = pre ++ mid ++ suf ∧ rmatch r mid = true) ∧
    (∀ (r : Route α) (md : Metadata),
        mget md r.field = none →
          routeMatches r md = rsearch r.pattern "".toList) ∧
    rsearch bridgePat "bridge_hangup".toList = true ∧
    rsearch hangupPat "bridge_hangup".toList = true ∧
    rsearch (lit "0") "101".toList = true ∧
    rmatch (lit "0") "101".toList = false := by
  refine ⟨?_, rsearch_iff, ?_, by decide, by decide, by decide, by decide⟩
  · intro t md r
    simp [iter_matches, List.mem_filter, routeMatches]
  · intro r md h
    simp [routeMatches, mgetD, h]

/-- Claim C7: `iter_matches` is read-only and idempotent — a call returns
the table unchanged, a second call on the returned table with identical
metadata returns the identical ordered sequence, and the table left by any
number of calls equals the table before them. -/
theorem C7_iter_matches_readonly {α : Type} :
    (∀ (t : RouteTable α) (md : Metadata), (iterMatchesCall t md).1 = t) ∧
    (∀ (t : RouteTable α) (md : Metadata),
        (iterMatchesCall (iterMatchesCall t md).1 md).2
          = (iterMatchesCall t md).2) ∧
    (∀ (t : RouteTable α) (mds : List Metadata), iterCalls t mds = t) := by
  refine ⟨fun t md => rfl, fun t md => rfl, ?_⟩
  intro t mds
  induction mds with
  | nil => rfl
  | cons md mds ih => exact ih

/-! ## Claims about dispatch, StopRouting and the Composer -/

/-- Claim C2: if, among the matched routes of one dispatch, some handler
raises StopRouting after a clean run of the routes before it, the remaining
routes never run — the dispatch loop stops right after that handler,
suppresses the signal (dispatch still completes with a `handled` outcome),
and every other session in the router's incoming stream is dispatched
exactly as it would be alone. -/
theorem C2_stop_routing (pre post : List (Route Handler))
    (rs : Route Handler) (s s₁ : Session)
    (hclean : runAll pre s = some s₁)
    (hstop : (rs.handler s₁).stopped = true) :
    runMatches (pre ++ rs :: post) s = ((rs.handler s₁).sess, pre ++ [rs]) ∧
    (∀ R : Router, evaluate R.guard s.metadata = true →
        (dispatch R s).1
          = .handled (runMatches (iter_matches R.table s.metadata) s).2) ∧
    (∀ (R : Router) (s₂ : Session),
        dispatchSessions R [s, s₂] = [dispatch R s, dispatch R s₂]) := by
  refine ⟨?_, ?_, fun R s₂ => rfl⟩
  · induction pre generalizing s with
    | nil =>
        simp only [runAll, Option.some.injEq] at hclean
        subst hclean
        simp [runMatches, hstop]
    | cons r pre ih =>
        by_cases hst : (r.handler s).stopped
        · simp [runAll, hst] at hclean
        · simp only [runAll, hst, if_neg, Bool.false_eq_true,
            not_false_eq_true, if_false] at hclean
          have := ih ((r.handler s).sess) hclean
          simp [runMatches, hst, this]
  · intro R hg
    simp [dispatch, hg]

/-- Claim C5: on guard failure, dispatch issues exactly one rejection
response through the session when reject-on-guard-failure is set, passes
the session through untouched when it is not, and in either case runs zero
route handlers (the outcome is never `handled`). -/
theorem C5_guard_failure (R : Router) (s : Session)
    (hfail : evaluate R.guard s.metadata = false) :
    (R.rejectOnGuard = true →
        dispatch R s = (.guardRejected, s.respond guardRejectCode)) ∧
    (R.rejectOnGuard = false → dispatch R s = (.guardDeclined, s)) ∧
    (∀ ran : List (Route Handler), (dispatch R s).1 ≠ .handled ran) := by
  refine ⟨?_, ?_, ?_⟩
  · intro hrej
    simp [dispatch, hfail, hrej]
  · intro hrej
    simp [dispatch, hfail, hrej]
  · intro ran
    by_cases hrej : R.rejectOnGuard <;> simp [dispatch, hfail, hrej]

/-- Claim C3: for a composer loaded with routers in order [R1, R2], if R1's
guard is satisfied then the session is handled by R1 and R2 is never
consulted (the consulted positions are exactly [0]); and if the
first-scanned router's guard fails with reject-on-guard-failure set, the
session is rejected at position 0 and no later router ever observes it. -/
theorem C3_composer_precedence (R1 R2 : Router) (s : Session) :
    (evaluate R1.guard s.metadata = true →
        composerDispatch [R1, R2] s
          = (.handledBy 0 (runMatches (iter_matches R1.table s.metadata) s).1
              (runMatches (iter_matches R1.table s.metadata) s).2, [0])) ∧
    (evaluate R1.guard s.metadata = false → R1.rejectOnGuard = true →
        composerDispatch [R1, R2] s
          = (.rejectedBy 0 (s.respond guardRejectCode), [0])) := by
  constructor
  · intro hg
    simp [composerDispatch, composerGo, dispatch, hg]
  · intro hg hrej
    simp [composerDispatch, composerGo, dispatch, hg, hrej]

/-! ## Concrete dispatch data (Scenario B and Scenario D) -/

/-- Scenario B's first handler: answer the session, then raise
StopRouting. -/
def answerStopH : Handler := fun s =>
  match s.answer with
  | .ok s' => ⟨s', true⟩
  | .error _ => ⟨s, true⟩

/-- Scenario B's second handler: log the hangup-route marker and hang
up. -/
def hangupLogH : Handler := fun s =>
  let s₁ := { s with log := s.log ++ ["hangup_route"] }
  match s₁.hangup with
  | .ok s' => ⟨s', false⟩
  | .error _ => ⟨s₁, false⟩

/-- Scenario B's first registered route for did 101. -/
def did101RouteA : Route Handler := ⟨lit "101", "did", answerStopH, 0⟩

/-- Scenario B's second registered route for did 101. -/
def did101RouteB : Route Handler := ⟨lit "101", "did", hangupLogH, 1⟩

/-- A ringing inbound session dialling did 101. -/
def sessB : Session :=
  ⟨"sess-b", [("did", "101"), ("Caller-Direction", "inbound")],
    .ringing, [], []⟩

/-- Scenario D's guard, requiring a doggy caller direction. -/
def scenDGuard : Guard := [("Caller-Direction", "doggy")]

/-- Scenario D's rejecting router: the guard above, reject-on-guard-failure
set, and an empty route table. -/
def routerD : Router := ⟨scenDGuard, true, ⟨[]⟩⟩

/-- An inbound session that fails Scenario D's guard. -/
def sessD : Session :=
  ⟨"sess-d", [("Caller-Direction", "inbound")], .ringing, [], []⟩

/-- Witness for C2 at Scenario B: the first matched handler answers and
raises StopRouting, so the dispatch loop stops with only that route run and
the second (hangup) route never runs. -/
theorem C2_stop_routing_witness :
    runMatches ([] ++ did101RouteA :: [did101RouteB]) sessB
      = ((did101RouteA.handler sessB).sess, [] ++ [did101RouteA]) :=
  (C2_stop_routing [] [did101RouteB] did101RouteA sessB sessB rfl rfl).1

/-- Witness for C5 at Scenario D: the guard fails against the inbound
metadata and, reject-on-guard-failure being set, dispatch issues exactly
the rejection response and runs zero handlers. -/
theorem C5_guard_failure_witness :
    dispatch routerD sessD
      = (.guardRejected, sessD.respond guardRejectCode) :=
  (C5_guard_failure routerD sessD (by decide)).1 rfl

/-! ## Claims about the Session state machine -/

/-- Claim C8: session status only moves forward along
Ringing → Answered → (Bridged | HungUp): every operation keeps or advances
the rank, nothing succeeds out of HungUp, and `answer` fails with a
`SessionError` whenever the session is not Ringing. -/
theorem C8_session_monotonic (s : Session) :
    (∀ s', s.answer = .ok s' → s.status.rank ≤ s'.status.rank) ∧
    (∀ s', s.bridge = .ok s' → s.status.rank ≤ s'.status.rank) ∧
    (∀ s', s.hangup = .ok s' → s.status.rank ≤ s'.status.rank) ∧
    (∀ res, (s.playback res).status = s.status) ∧
    (∀ code, (s.respond code).status = s.status) ∧
    (s.status = .hungUp →
        (∀ s', s.answer ≠ .ok s') ∧ (∀ s', s.bridge ≠ .ok s') ∧
          (∀ s', s.hangup ≠ .ok s')) ∧
    (s.status ≠ .ringing → ∃ e, s.answer = .error e) := by
  refine ⟨?_, ?_, ?_, fun res => rfl, fun code => rfl, ?_, ?_⟩
  · intro s' h
    cases hs : s.status <;> simp [Session.answer, hs] at h
    simp [hs, ← h, Status.rank]
  · intro s' h
    cases hs : s.status <;> simp [Session.bridge, hs] at h
    simp [hs, ← h, Status.rank]
  · intro s' h
    cases hs : s.status <;> simp [Session.hangup, hs] at h <;>
      simp [hs, ← h, Status.rank]
  · intro hs
    refine ⟨?_, ?_, ?_⟩ <;> intro s' h <;>
      simp [Session.answer, Session.bridge, Session.hangup, hs] at h
  · intro hs
    cases h : s.status with
    | ringing => exact absurd h hs
    | answered => exact ⟨.invalidState "answer" .answered, by simp [Session.answer, h]⟩
    | bridged => exact ⟨.invalidState "answer" .bridged, by simp [Session.answer, h]⟩
    | hungUp => exact ⟨.invalidState "answer" .hungUp, by simp [Session.answer, h]⟩

/-! ## Claims about utils.py -/

/-- Claim C9: `xheaderify` always embeds the `sip_h_X-` token, so
`param2header` after `xheaderify` always prefixes `variable_`, giving
`variable_sip_h_X-` followed by the original name; in general
`param2header` prefixes `variable_` to exactly the names containing the
`sip_h_X-` or `switchio` token and returns every other name unchanged. -/
theorem C9_xheader_param2header (name : String) :
    param2header (xheaderify name) = "variable_sip_h_X-" ++ name ∧
    xheaderify name = "sip_h_X-" ++ name ∧
    strContains (xheaderify name) "sip_h_X-" = true ∧
    ((strContains name "sip_h_X-" = true ∨ strContains name "switchio" = true) →
        param2header name = "variable_" ++ name) ∧
    (strContains name "sip_h_X-" = false →
      strContains name "switchio" = false → param2header name = name) := by
  have hsub : strContains (xheaderify name) "sip_h_X-" = true := by
    apply decide_eq_true
    show "sip_h_X-".toList <:+: ("sip_h_X-" ++ name).toList
    exact ⟨[], name.toList, by simp [String.toList, String.data_append]⟩
  refine ⟨?_, rfl, hsub, ?_, ?_⟩
  · rw [param2header, hsub]
    simp only [Bool.true_or, if_true]
    rw [xheaderify, ← String.append_assoc]
    rfl
  · intro h
    rcases h with h | h <;> simp [param2header, h]
  · intro h1 h2
    simp [param2header, h1, h2]

/-- Claim C10: `compose` raises TypeError at construction time exactly when
one of its arguments is not callable; when both are callable it returns,
without invoking either function, the closure applying the second function
and then the first — for the first non-callable argument the error message
blames the first argument. -/
theorem C10_compose (α β γ : Type) (func_1 : Callable β γ)
    (func_2 : Callable α β) :
    ((∃ e, compose func_1 func_2 = .error e) ↔
        func_1 = .notCallable ∨ func_2 = .notCallable) ∧
    (∀ g₁ g₂, func_1 = .fn g₁ → func_2 = .fn g₂ →
        compose func_1 func_2 = .ok fun x => (g₂ x).bind g₁) ∧
    (∀ (g₁ : β → Option γ) (g₂ : α → Option β) (h : α → Option γ),
        compose (.fn g₁) (.fn g₂) = .ok h → ∀ x, h x = (g₂ x).bind g₁) := by
  refine ⟨?_, ?_, ?_⟩
  · cases func_1 <;> cases func_2 <;> simp [compose]
  · intro g₁ g₂ h1 h2
    subst h1; subst h2
    rfl
  · intro g₁ g₂ h hok x
    simp only [compose, Except.ok.injEq] at hok
    rw [← hok]

end Switchio
